import Mathlib

/-!
Shallow embedding of `src/index.js` of `chrome-runner`: a supervisor for a
single external Chrome process (class `Runner` plus the exported helpers
`launch`, `launchWithoutNoise`, `launchWithHeadless`).

The JS code is event-driven and effectful.  We model it as pure state
transitions on a `RunnerState` record (mirroring the fields set in the
`Runner` constructor, `src/index.js` lines 26-38), with:
  * the observable side effects (filesystem writes, process spawns, handler
    registrations, kills) collected into an explicit `Effect` list;
  * the external collaborators that live outside `src/` (`./chrome-finder`,
    `./flags`, `./util`) supplied as parameters in an `Env` record, exactly
    at the interfaces the code uses them (candidate installation list,
    random free port, tmp-dir path, TCP reachability probes);
  * fallible paths returning `Except LaunchError`.

Machine integers do not occur (ports and pids are plain numbers used
opaquely), so `Nat` is used directly.
-/

namespace ChromeRunner

/-- `SUPPORTED_PLATFORMS` (src/index.js line 15). -/
def SUPPORTED_PLATFORMS : List String := ["darwin", "linux", "win32"]

/-- The fields of a `Runner` instance (constructor, src/index.js lines 26-38).
`port`, `chromePath` are `Option`s because the JS fields may be `undefined`;
`chromeProcess` holds the pid of the tracked process when present;
`chromeOutFile`, `chromeErrorFile`, `pidFile` hold open file descriptors. -/
structure RunnerState where
  port : Option Nat
  chromePath : Option String
  chromeFlags : List String
  tmpDirandPidFileReady : Bool
  chromeProcess : Option Nat
  chromeDataDir : Option String
  chromeOutFile : Option Nat
  chromeErrorFile : Option Nat
  pidFile : Option Nat
  restartUnexpectedChrome : Bool
deriving DecidableEq, Repr

/-- Constructor options (`opts`, src/index.js lines 19-29).  `chromeFlags`
is `Option` so we can distinguish a caller that supplied the property from
one that did not (which matters for the `Object.assign` semantics of the
exported helpers). -/
structure RunnerOptions where
  port : Option Nat
  chromePath : Option String
  chromeFlags : Option (List String)
deriving DecidableEq, Repr

/-- `new Runner(opts)` (src/index.js lines 26-38):
`this.chromeFlags = opts.chromeFlags || []`. -/
def Runner.new (opts : RunnerOptions) : RunnerState :=
  { port := opts.port
    chromePath := opts.chromePath
    chromeFlags := (match opts.chromeFlags with | some fs => fs | none => [])
    tmpDirandPidFileReady := false
    chromeProcess := none
    chromeDataDir := none
    chromeOutFile := none
    chromeErrorFile := none
    pidFile := none
    restartUnexpectedChrome := true }

/-- JS truthiness of the `port` field: `if (this.port)` is false for
`undefined` and for `0`. -/
def portTruthy : Option Nat → Bool
  | none => false
  | some p => p != 0

/-- JS truthiness of the `chromePath` field: `if (!this.chromePath)`;
`undefined` and the empty string are falsy. -/
def pathTruthy : Option String → Bool
  | none => false
  | some p => p != ""

/-- Rendering of a possibly-`undefined` number into a template string,
as JS string interpolation does. -/
def optNatStr : Option Nat → String
  | none => "undefined"
  | some n => toString n

/-- Rendering of a possibly-`undefined` string into a template string. -/
def optStrStr : Option String → String
  | none => "undefined"
  | some s => s

/-- The observable side effects of the supervisor, in program order:
the adoption probe (`isDebugReady` from `launch`), the warn log on a failed
adoption probe, tmp-dir creation and the three `fs.openSync(..., 'a')`
calls of `prepare`, the `spawn` of the OS process, the `process.on('SIGINT')`
registration, the `on('close')` exit-watcher registration, the pid-file
write, `fs.closeSync`, `rimraf.sync`, and the kill of a process group. -/
inductive Effect
  | probePort (port : String)
  | warnLog (msg : String)
  | mkTmpDir (dir : String)
  | openFileAppend (path : String)
  | spawnProcess (path : String) (args : List String) (pid : Nat)
  | registerSigintHandler
  | registerCloseWatcher (pid : Nat)
  | writePidFile (pid : Nat)
  | closeFd (fd : Nat)
  | rmTree (dir : String)
  | killGroup (pid : Nat)
deriving DecidableEq, Repr

/-- The errors `launch`/`spawn`/`prepare` can reject with
(src/index.js lines 58, 113, and the readiness-timeout rejection of
`waitUntilReady`).  The timeout error records how many probe attempts were
made and the cumulative `delay(500)` milliseconds spent. -/
inductive LaunchError
  | unsupportedPlatform (platform : String)
  | noInstallations
  | readinessTimeout (attempts delayMs : Nat)
deriving DecidableEq, Repr

/-- How a successful `launch` resolved: by adopting an endpoint already
reachable on the supplied port, by finding a process already tracked
(`spawn`'s guard), or by spawning and completing readiness polling after
the recorded number of attempts and milliseconds of delay. -/
inductive LaunchOutcome
  | adopted
  | alreadyRunning (pid : Nat)
  | ready (attempts delayMs : Nat)
deriving DecidableEq, Repr

/-- The external collaborators of `src/index.js`, supplied at their
interfaces: `process.platform`; the result of `isPortOpen(this.port)` for
the adoption probe in `launch`; the per-attempt results of
`isPortOpen(this.port)` during readiness polling (attempt numbers start
at 1); `chromeFinder[process.platform]()`; `getRandomPort()`;
`makeTmpDir()`; the fds returned by the three `fs.openSync` calls; and the
pid of the newly spawned process. -/
structure Env where
  platform : String
  portProbe : Bool
  readyProbe : Nat → Bool
  installations : List String
  freePort : Nat
  tmpDir : String
  outFd : Nat
  errFd : Nat
  pidFd : Nat
  newPid : Nat

/-- `get flags()` (src/index.js lines 94-108): `DEFAULT_FLAGS` (from the
external `./flags` module, hence a parameter) then the debugging-port and
user-data-dir flags, then `--disable-setuid-sandbox` exactly when
`process.platform === 'linux'`, then the caller's `chromeFlags`, then the
final `about:blank`. -/
def Runner.flags (defaultFlags : List String) (platform : String)
    (s : RunnerState) : List String :=
  (defaultFlags ++
    ["--remote-debugging-port=" ++ optNatStr s.port,
     "--user-data-dir=" ++ optStrStr s.chromeDataDir]) ++
  (if platform == "linux" then ["--disable-setuid-sandbox"] else []) ++
  s.chromeFlags ++ ["about:blank"]

/-- `prepare()` (src/index.js lines 110-124): reject unsupported platforms
before any filesystem write; otherwise create the tmp dir, open the two
log files and the pid file in append mode, and set the ready guard. -/
def Runner.prepare (env : Env) (s : RunnerState) :
    Except LaunchError (RunnerState × List Effect) :=
  if SUPPORTED_PLATFORMS.contains env.platform then
    Except.ok
      ({ s with
          chromeDataDir := some env.tmpDir
          chromeOutFile := some env.outFd
          chromeErrorFile := some env.errFd
          pidFile := some env.pidFd
          tmpDirandPidFileReady := true },
        [Effect.mkTmpDir env.tmpDir,
         Effect.openFileAppend (env.tmpDir ++ "/chrome-out.log"),
         Effect.openFileAppend (env.tmpDir ++ "/chrome-err.log"),
         Effect.openFileAppend (env.tmpDir ++ "/chrome.pid")])
  else
    Except.error (LaunchError.unsupportedPlatform env.platform)

/-- The preparation step as `launch()` invokes it (src/index.js lines
49-51): `prepare()` runs only when the `tmpDirandPidFileReady` guard is
still false. -/
def Runner.prepareStep (env : Env) (s : RunnerState) :
    Except LaunchError (RunnerState × List Effect) :=
  if s.tmpDirandPidFileReady then Except.ok (s, []) else Runner.prepare env s

/-- One iteration body of `waitUntilReady`'s `poll` (src/index.js lines
176-188), with the mutable `retries` counter passed explicitly (its value
before the `retries++` of this iteration) and recursion bounded by `fuel`
(the loop itself is bounded by the `retries > 10` check; fuel 10 at the
entry call is enough and the fuel-exhausted branch is unreachable).
Returns (probe succeeded?, attempts made from here, cumulative `delay(500)`
milliseconds from here). -/
def pollAux (probe : Nat → Bool) : Nat → Nat → Bool × Nat × Nat
  | fuel, retries =>
    let r := retries + 1
    if probe r then (true, 1, 0)
    else if 10 < r then (false, 1, 0)
    else
      match fuel with
      | 0 => (false, 1, 0)
      | Nat.succ fuel2 =>
        let rest := pollAux probe fuel2 r
        (rest.1, rest.2.1 + 1, rest.2.2 + 500)

/-- `waitUntilReady()` (src/index.js lines 172-191): `retries` starts at 0
and `poll()` is entered immediately. -/
def Runner.waitUntilReady (probe : Nat → Bool) : Bool × Nat × Nat :=
  pollAux probe 10 0

/-- The port-allocation step at the start of `spawn()`'s real-spawn path
(src/index.js lines 132-134): `if (!this.port) this.port = await
getRandomPort()`. -/
def spawnPortState (env : Env) (s : RunnerState) : RunnerState :=
  if portTruthy s.port then s else { s with port := some env.freePort }

/-- `spawn()` (src/index.js lines 126-146): if a process is already tracked,
return its pid without doing anything; otherwise allocate a port if none
is truthy yet, spawn the process with the generated flags, record the
handle, register the SIGINT handler and the exit-watcher, write the pid
file, then block on `waitUntilReady` and propagate its failure. -/
def Runner.spawn (defaultFlags : List String) (env : Env) (s : RunnerState) :
    RunnerState × List Effect × Except LaunchError LaunchOutcome :=
  match s.chromeProcess with
  | some pid => (s, [], Except.ok (LaunchOutcome.alreadyRunning pid))
  | none =>
    let s1 := spawnPortState env s
    let pid := env.newPid
    let s2 := { s1 with chromeProcess := some pid }
    let effs :=
      [Effect.spawnProcess (optStrStr s1.chromePath)
          (Runner.flags defaultFlags env.platform s1) pid,
       Effect.registerSigintHandler,
       Effect.registerCloseWatcher pid,
       Effect.writePidFile pid]
    match Runner.waitUntilReady env.readyProbe with
    | (true, a, d) => (s2, effs, Except.ok (LaunchOutcome.ready a d))
    | (false, a, d) => (s2, effs, Except.error (LaunchError.readinessTimeout a d))

/-- The fall-through body of `launch()` after the adoption branch
(src/index.js lines 49-63): guarded preparation, executable resolution via
the platform finder when `chromePath` is not truthy, then `spawn`.
`pre` carries the effects already emitted by the adoption branch. -/
def Runner.launchFresh (defaultFlags : List String) (env : Env)
    (s : RunnerState) (pre : List Effect) :
    RunnerState × List Effect × Except LaunchError LaunchOutcome :=
  match Runner.prepareStep env s with
  | Except.error e => (s, pre, Except.error e)
  | Except.ok (s1, prepEffs) =>
    match
      (if pathTruthy s1.chromePath then Except.ok s1
       else match env.installations with
         | [] => Except.error LaunchError.noInstallations
         | p :: _ => Except.ok { s1 with chromePath := some p }) with
    | Except.error e => (s1, pre ++ prepEffs, Except.error e)
    | Except.ok s2 =>
      match Runner.spawn defaultFlags env s2 with
      | (s3, spawnEffs, r) => (s3, pre ++ prepEffs ++ spawnEffs, r)

/-- `launch()` (src/index.js lines 40-64): when a truthy port was supplied,
probe it once; on success return immediately (state untouched, nothing
spawned, nothing prepared); on failure log a warning and fall through to a
fresh launch. -/
def Runner.launch (defaultFlags : List String) (env : Env) (s : RunnerState) :
    RunnerState × List Effect × Except LaunchError LaunchOutcome :=
  if portTruthy s.port then
    if env.portProbe then
      (s, [Effect.probePort (optNatStr s.port)], Except.ok LaunchOutcome.adopted)
    else
      Runner.launchFresh defaultFlags env s
        [Effect.probePort (optNatStr s.port),
         Effect.warnLog ("no chrome found on port " ++ optNatStr s.port ++
           ", launching a new Chrome.")]
  else
    Runner.launchFresh defaultFlags env s []

/-- What one `kill()` call does besides the state change
(src/index.js lines 66-92): whether a (group) termination request was
issued and for which pid, whether a `destroyTmp` run was registered on the
process's close event, and whether the promise resolved immediately (the
no-tracked-process branch). -/
structure KillOutcome where
  attemptedKillPid : Option Nat
  destroysTmpOnClose : Bool
  resolvedImmediately : Bool
deriving DecidableEq, Repr

/-- `kill()` (src/index.js lines 66-92): `restartUnexpectedChrome` is set
to false before anything else; with a tracked process the close-waiter is
registered, a whole-group termination is attempted (failures only logged),
and the handle is deleted; with no tracked process it resolves at once. -/
def Runner.kill (s : RunnerState) : RunnerState × KillOutcome :=
  let s0 := { s with restartUnexpectedChrome := false }
  match s0.chromeProcess with
  | some pid =>
    ({ s0 with chromeProcess := none },
     { attemptedKillPid := some pid
       destroysTmpOnClose := true
       resolvedImmediately := false })
  | none =>
    (s0,
     { attemptedKillPid := none
       destroysTmpOnClose := false
       resolvedImmediately := true })

/-- `destroyTmp()` (src/index.js lines 193-205): close the stdout and
stderr log fds when still open, clearing each field after closing, then
recursively remove the data dir.  The pid-file fd is not closed and
`chromeDataDir` and the ready guard are not cleared. -/
def Runner.destroyTmp (s : RunnerState) : RunnerState × List Effect :=
  let p1 :=
    match s.chromeOutFile with
    | some fd => ({ s with chromeOutFile := none }, [Effect.closeFd fd])
    | none => (s, ([] : List Effect))
  let p2 :=
    match p1.1.chromeErrorFile with
    | some fd => ({ p1.1 with chromeErrorFile := none }, [Effect.closeFd fd])
    | none => (p1.1, ([] : List Effect))
  (p2.1, p1.2 ++ p2.2 ++ [Effect.rmTree (optStrStr p2.1.chromeDataDir)])

/-- A `kill()` on a running process followed by the tracked process's
`close` event, which runs `destroyTmp` and resolves the kill promise
(src/index.js lines 70-73).  When nothing was tracked the close-waiter was
never registered and no teardown runs. -/
def Runner.killThenClose (s : RunnerState) :
    RunnerState × KillOutcome × List Effect :=
  let p := Runner.kill s
  if p.2.destroysTmpOnClose then
    let q := Runner.destroyTmp p.1
    (q.1, p.2, [Effect.killGroup ((p.2.attemptedKillPid).getD 0)] ++ q.2)
  else
    (p.1, p.2, [])

/-- The callback `handleChromeUnexpectedExit` attaches to the tracked
process's `close` event (src/index.js lines 155-165): when
`restartUnexpectedChrome` still holds, delete the handle and schedule
`spawn` via `setTimeout(..., 1000)`; otherwise do nothing.  Returns the new
state and the delay of the scheduled respawn, if one was scheduled. -/
def Runner.onChromeClose (s : RunnerState) : RunnerState × Option Nat :=
  if s.restartUnexpectedChrome then
    ({ s with chromeProcess := none }, some 1000)
  else
    (s, none)

/-- `launchWithoutNoise` / `launchWithHeadless` build the `Runner`
constructor argument with `Object.assign({ chromeFlags }, runnerOptions)`
(src/index.js lines 219-221 and 234-236): own properties of
`runnerOptions` are copied last, so a caller-supplied `chromeFlags`
property overrides the injected one. -/
def assignChromeFlags (injected : List String) (o : RunnerOptions) :
    RunnerOptions :=
  { port := o.port
    chromePath := o.chromePath
    chromeFlags :=
      some (match o.chromeFlags with | some fs => fs | none => injected) }

/-- The `Runner` built by `launchWithoutNoise(runnerOptions)`
(src/index.js lines 214-224): `NOISE_FLAGS` comes from the external
`./flags` module, hence a parameter. -/
def launchWithoutNoiseRunner (noiseFlags : List String) (o : RunnerOptions) :
    RunnerState :=
  let chromeFlags :=
    match o.chromeFlags with
    | some fs => noiseFlags ++ fs
    | none => noiseFlags
  Runner.new (assignChromeFlags chromeFlags o)

/-- The `Runner` built by `launchWithHeadless(runnerOptions)`
(src/index.js lines 226-239). -/
def launchWithHeadlessRunner (noiseFlags : List String) (o : RunnerOptions) :
    RunnerState :=
  let chromeFlags :=
    match o.chromeFlags with
    | some fs => (noiseFlags ++ ["--headless", "--disable-gpu"]) ++ fs
    | none => noiseFlags ++ ["--headless", "--disable-gpu"]
  Runner.new (assignChromeFlags chromeFlags o)

/-- Number of effects in a list satisfying a predicate. -/
def countEffects (p : Effect → Bool) (effs : List Effect) : Nat :=
  (effs.filter p).length

/-- Recognizer for `process.on('SIGINT', ...)` registrations. -/
def isSigintReg : Effect → Bool
  | Effect.registerSigintHandler => true
  | _ => false

/-- Recognizer for `chromeProcess.on('close', ...)` exit-watcher
registrations. -/
def isCloseWatcherReg : Effect → Bool
  | Effect.registerCloseWatcher _ => true
  | _ => false

/-- Recognizer for OS process spawns. -/
def isSpawnProc : Effect → Bool
  | Effect.spawnProcess _ _ _ => true
  | _ => false

/-- Recognizer for tmp-dir creations. -/
def isMkTmpDir : Effect → Bool
  | Effect.mkTmpDir _ => true
  | _ => false

/-- Recognizer for `fs.openSync(..., 'a')` calls. -/
def isOpenFileAppend : Effect → Bool
  | Effect.openFileAppend _ => true
  | _ => false

/-- Recognizer for the adoption probe of `launch`. -/
def isProbePort : Effect → Bool
  | Effect.probePort _ => true
  | _ => false

/-- Recognizer for the warn log of a failed adoption probe. -/
def isWarnLog : Effect → Bool
  | Effect.warnLog _ => true
  | _ => false

/-- Recognizer for process(-group) kill requests. -/
def isKillGroup : Effect → Bool
  | Effect.killGroup _ => true
  | _ => false

/-- Recognizer for `rimraf.sync` workspace removals. -/
def isRmTree : Effect → Bool
  | Effect.rmTree _ => true
  | _ => false

/-- Recognizer for `fs.closeSync` calls. -/
def isCloseFd : Effect → Bool
  | Effect.closeFd _ => true
  | _ => false

/-- A session's observable handler-registration history: the runner state
together with how many SIGINT handlers and exit-watchers have been
registered so far (counted from the effects `spawn` emits). -/
structure SessionObs where
  runner : RunnerState
  sigintHandlers : Nat
  closeWatchers : Nat
deriving DecidableEq, Repr

/-- The two session events relevant to handler registration: a `spawn()`
call (either a direct one or the `setTimeout`-scheduled respawn of the
exit-watcher) and a `close` event of the tracked process. -/
inductive SessionEvent
  | spawnCall
  | processClose
deriving DecidableEq, Repr

/-- One step of the session's event loop: `spawn()` contributes exactly the
handler registrations it emits; a `close` event runs the exit-watcher
callback (`handleChromeUnexpectedExit`'s closure). -/
def sessionStep (defaultFlags : List String) (env : Env) (ts : SessionObs) :
    SessionEvent → SessionObs
  | SessionEvent.spawnCall =>
    let r := Runner.spawn defaultFlags env ts.runner
    { runner := r.1
      sigintHandlers := ts.sigintHandlers + countEffects isSigintReg r.2.1
      closeWatchers := ts.closeWatchers + countEffects isCloseWatcherReg r.2.1 }
  | SessionEvent.processClose =>
    { ts with runner := (Runner.onChromeClose ts.runner).1 }

/-- Folding a sequence of session events from an initial observation. -/
def runSession (defaultFlags : List String) (env : Env) (ts : SessionObs)
    (evs : List SessionEvent) : SessionObs :=
  evs.foldl (sessionStep defaultFlags env) ts

/-- A sample environment: Linux, adoption probe failing, readiness probe
succeeding only from the 11th attempt on. -/
def envProbe11 : Env :=
  { platform := "linux"
    portProbe := false
    readyProbe := fun n => decide (11 ≤ n)
    installations := ["/usr/bin/chromium"]
    freePort := 9222
    tmpDir := "/tmp/chrome-ws"
    outFd := 3
    errFd := 4
    pidFd := 5
    newPid := 4242 }

/-- A sample environment: Linux, adoption probe failing, readiness probe
always succeeding. -/
def envReady : Env :=
  { envProbe11 with readyProbe := fun _ => true }

/-- A sample environment: Linux, adoption probe succeeding. -/
def envAdopt : Env :=
  { envProbe11 with portProbe := true }

/-- A freshly constructed session with a caller-supplied port and
executable path. -/
def sAdopt : RunnerState :=
  Runner.new { port := some 9222
               chromePath := some "/usr/bin/chromium"
               chromeFlags := none }

/-- A freshly constructed session with no caller-supplied port. -/
def sFresh : RunnerState :=
  Runner.new { port := none
               chromePath := some "/usr/bin/chromium"
               chromeFlags := none }

/-- A session whose workspace has already been prepared (the state reached
after `prepare()` succeeded), with no tracked process yet. -/
def sPrepared : RunnerState :=
  { port := none
    chromePath := some "/usr/bin/chromium"
    chromeFlags := []
    tmpDirandPidFileReady := true
    chromeProcess := none
    chromeDataDir := some "/tmp/chrome-ws"
    chromeOutFile := some 3
    chromeErrorFile := some 4
    pidFile := some 5
    restartUnexpectedChrome := true }

/-- A session with a tracked running process and prepared workspace. -/
def sRunning : RunnerState :=
  { sPrepared with port := some 9222, chromeProcess := some 4242 }

/-- A sample environment whose readiness probe never succeeds. -/
def envNever : Env :=
  { envProbe11 with readyProbe := fun _ => false }

/-- A sample environment on a platform outside `SUPPORTED_PLATFORMS`. -/
def envUnsupported : Env :=
  { envProbe11 with platform := "freebsd" }

/-- The four filesystem effects `prepare()` performs on a supported
platform (src/index.js lines 116-119). -/
def prepareEffects (env : Env) : List Effect :=
  [Effect.mkTmpDir env.tmpDir,
   Effect.openFileAppend (env.tmpDir ++ "/chrome-out.log"),
   Effect.openFileAppend (env.tmpDir ++ "/chrome-err.log"),
   Effect.openFileAppend (env.tmpDir ++ "/chrome.pid")]

/-! ### Helper lemmas -/

/-- The remote-debugging-port flag can never collide with the setuid-sandbox
flag, whatever the rendered port. -/
theorem remotePortFlag_ne_setuid (x : String) :
    ("--remote-debugging-port=" ++ x) ≠ "--disable-setuid-sandbox" := by
  intro h
  have h2 := congrArg String.data h
  rw [String.data_append] at h2
  have h3 := congrArg (List.take 3) h2
  rw [List.take_append_of_le_length (by decide)] at h3
  exact absurd h3 (by decide)

/-- The user-data-dir flag can never collide with the setuid-sandbox flag,
whatever the rendered directory. -/
theorem userDataDirFlag_ne_setuid (x : String) :
    ("--user-data-dir=" ++ x) ≠ "--disable-setuid-sandbox" := by
  intro h
  have h2 := congrArg String.data h
  rw [String.data_append] at h2
  have h3 := congrArg (List.take 3) h2
  rw [List.take_append_of_le_length (by decide)] at h3
  exact absurd h3 (by decide)

/-- With a probe that always fails and a fuel/retries budget summing to the
loop bound, the poll loop fails after `fuel + 1` attempts with `500·fuel`
milliseconds of cumulative delay. -/
theorem pollAux_all_false (probe : Nat → Bool) (h : ∀ n, probe n = false)
    (fuel : Nat) :
    ∀ retries, retries + fuel = 10 →
      pollAux probe fuel retries = (false, fuel + 1, 500 * fuel) := by
  induction fuel with
  | zero =>
    intro retries hfr
    have hr : retries = 10 := by omega
    subst hr
    simp [pollAux, h]
  | succ f ih =>
    intro retries hfr
    have hle : ¬ 10 < retries + 1 := by omega
    have hrest := ih (retries + 1) (by omega)
    simp [pollAux, h, hle, hrest]
    omega

/-- With a probe failing on attempts 1..10 and succeeding on attempt 11,
the poll loop succeeds after `fuel + 1` attempts with `500·fuel`
milliseconds of cumulative delay. -/
theorem pollAux_succeeds_at_11 (probe : Nat → Bool)
    (h10 : ∀ n, n ≤ 10 → probe n = false) (h11 : probe 11 = true)
    (fuel : Nat) :
    ∀ retries, retries + fuel = 10 →
      pollAux probe fuel retries = (true, fuel + 1, 500 * fuel) := by
  induction fuel with
  | zero =>
    intro retries hfr
    have hr : retries = 10 := by omega
    subst hr
    simp [pollAux, h11]
  | succ f ih =>
    intro retries hfr
    have hp : probe (retries + 1) = false := h10 (retries + 1) (by omega)
    have hle : ¬ 10 < retries + 1 := by omega
    have hrest := ih (retries + 1) (by omega)
    simp [pollAux, hp, hle, hrest]
    omega

/-- An always-failing probe: `waitUntilReady` fails after exactly 11
attempts and 5000 ms of cumulative delay. -/
theorem waitUntilReady_all_false (probe : Nat → Bool)
    (h : ∀ n, probe n = false) :
    Runner.waitUntilReady probe = (false, 11, 5000) := by
  simpa [Runner.waitUntilReady] using pollAux_all_false probe h 10 0 (by omega)

/-- A probe failing on attempts 1..10 and succeeding on attempt 11:
`waitUntilReady` succeeds after exactly 11 attempts and 5000 ms of
cumulative delay. -/
theorem waitUntilReady_succeeds_at_11 (probe : Nat → Bool)
    (h10 : ∀ n, n ≤ 10 → probe n = false) (h11 : probe 11 = true) :
    Runner.waitUntilReady probe = (true, 11, 5000) := by
  simpa [Runner.waitUntilReady] using
    pollAux_succeeds_at_11 probe h10 h11 10 0 (by omega)

/-- The poll loop never makes more than `fuel + 1` attempts. -/
theorem pollAux_attempts_le (probe : Nat → Bool) (fuel : Nat) :
    ∀ retries, (pollAux probe fuel retries).2.1 ≤ fuel + 1 := by
  induction fuel with
  | zero =>
    intro retries
    rw [pollAux]
    by_cases hp : probe (retries + 1) = true
    · rw [if_pos hp]
    · rw [if_neg hp]
      split <;> simp
  | succ f ih =>
    intro retries
    rw [pollAux]
    by_cases hp : probe (retries + 1) = true
    · rw [if_pos hp]
      simp
    · rw [if_neg hp]
      split
      · simp
      · have h2 := ih (retries + 1)
        show (pollAux probe f (retries + 1)).2.1 + 1 ≤ f + 1 + 1
        omega

/-- Under the hypotheses making `launch` fall straight through to `spawn`
(no truthy port, workspace already prepared, truthy executable path),
`launch` is exactly `spawn`. -/
theorem launch_eq_spawn (defaultFlags : List String) (env : Env)
    (s : RunnerState) (hport : portTruthy s.port = false)
    (hguard : s.tmpDirandPidFileReady = true)
    (hpath : pathTruthy s.chromePath = true) :
    Runner.launch defaultFlags env s = Runner.spawn defaultFlags env s := by
  rcases hs : Runner.spawn defaultFlags env s with ⟨s3, spawnEffs, r⟩
  simp [Runner.launch, Runner.launchFresh, Runner.prepareStep, hport, hguard,
    hpath, hs]

/-- On the real-spawn path (no tracked process), the effects `spawn` emits
are exactly the process spawn, the SIGINT-handler registration, the
exit-watcher registration and the pid-file write, whatever the readiness
probe then does. -/
theorem spawn_effects (defaultFlags : List String) (env : Env)
    (s : RunnerState) (hproc : s.chromeProcess = none) :
    (Runner.spawn defaultFlags env s).2.1 =
      [Effect.spawnProcess (optStrStr (spawnPortState env s).chromePath)
         (Runner.flags defaultFlags env.platform (spawnPortState env s))
         env.newPid,
       Effect.registerSigintHandler,
       Effect.registerCloseWatcher env.newPid,
       Effect.writePidFile env.newPid] := by
  rcases hw : Runner.waitUntilReady env.readyProbe with ⟨b, a, d⟩
  cases b <;> simp [Runner.spawn, hproc, hw]

/-- `spawnPortState` changes no field except possibly `port`. -/
theorem spawnPortState_fields (env : Env) (s : RunnerState) :
    (spawnPortState env s).chromePath = s.chromePath ∧
    (spawnPortState env s).chromeProcess = s.chromeProcess ∧
    (spawnPortState env s).tmpDirandPidFileReady = s.tmpDirandPidFileReady := by
  by_cases hp : portTruthy s.port = true <;> simp [spawnPortState, hp]

/-! ### Claim theorems -/

/-- C1: on a termination event of the tracked process, when shutdown has
not been requested (`restartUnexpectedChrome` still true) the exit-watcher
clears the process handle and schedules a fresh `spawn()` after a fixed
1000 ms delay; `kill()` sets the flag to false before anything else, and
after a `kill()` the same termination event never schedules a respawn. -/
theorem c1_restart_policy (s : RunnerState)
    (h : s.restartUnexpectedChrome = true) :
    Runner.onChromeClose s = ({ s with chromeProcess := none }, some 1000) ∧
    ((Runner.kill s).1).restartUnexpectedChrome = false ∧
    Runner.onChromeClose ((Runner.kill s).1) = ((Runner.kill s).1, none) := by
  refine ⟨by simp [Runner.onChromeClose, h], ?_, ?_⟩
  · cases hc : s.chromeProcess <;> simp [Runner.kill, hc]
  · cases hc : s.chromeProcess <;>
      simp [Runner.kill, Runner.onChromeClose, hc]

/-- Witness for C1 at a concrete running session. -/
theorem c1_restart_policy_witness :
    Runner.onChromeClose sRunning =
      ({ sRunning with chromeProcess := none }, some 1000) ∧
    ((Runner.kill sRunning).1).restartUnexpectedChrome = false ∧
    Runner.onChromeClose ((Runner.kill sRunning).1) =
      ((Runner.kill sRunning).1, none) :=
  c1_restart_policy sRunning rfl

/-- C5: `kill()` on a session with no tracked process resolves immediately,
attempts no termination and registers no teardown; and after any `kill()`
the handle is cleared, so a second `kill()` in sequence resolves
immediately as well, with no second termination attempt and no second
teardown registration. -/
theorem c5_kill_idempotent (s t : RunnerState) (h : s.chromeProcess = none) :
    Runner.kill s =
      ({ s with restartUnexpectedChrome := false },
       { attemptedKillPid := none
         destroysTmpOnClose := false
         resolvedImmediately := true }) ∧
    ((Runner.kill t).1).chromeProcess = none ∧
    Runner.kill ((Runner.kill t).1) =
      ((Runner.kill t).1,
       { attemptedKillPid := none
         destroysTmpOnClose := false
         resolvedImmediately := true }) := by
  refine ⟨by simp [Runner.kill, h], ?_, ?_⟩
  · cases hc : t.chromeProcess <;> simp [Runner.kill, hc]
  · cases hc : t.chromeProcess <;> simp [Runner.kill, hc]

/-- Witness for C5 at concrete sessions (one never started, one running). -/
theorem c5_kill_idempotent_witness :
    Runner.kill sFresh =
      ({ sFresh with restartUnexpectedChrome := false },
       { attemptedKillPid := none
         destroysTmpOnClose := false
         resolvedImmediately := true }) ∧
    ((Runner.kill sRunning).1).chromeProcess = none ∧
    Runner.kill ((Runner.kill sRunning).1) =
      ((Runner.kill sRunning).1,
       { attemptedKillPid := none
         destroysTmpOnClose := false
         resolvedImmediately := true }) :=
  c5_kill_idempotent sFresh sRunning rfl

/-- C10: a completed `kill()` (including the `destroyTmp` run on the
process's close event) never resets the workspace-ready guard and leaves
the stored port, executable path and (now-deleted) data-dir path
unchanged, with the process handle cleared; a subsequent `launch()`'s
preparation step is therefore a no-op that performs no filesystem
effects. -/
theorem c10_kill_preserves_guard (env : Env) (s : RunnerState)
    (hready : s.tmpDirandPidFileReady = true) :
    ((Runner.killThenClose s).1).tmpDirandPidFileReady = true ∧
    ((Runner.killThenClose s).1).port = s.port ∧
    ((Runner.killThenClose s).1).chromePath = s.chromePath ∧
    ((Runner.killThenClose s).1).chromeDataDir = s.chromeDataDir ∧
    ((Runner.killThenClose s).1).chromeProcess = none ∧
    Runner.prepareStep env ((Runner.killThenClose s).1) =
      Except.ok ((Runner.killThenClose s).1, []) := by
  cases hc : s.chromeProcess <;>
  cases ho : s.chromeOutFile <;>
  cases he : s.chromeErrorFile <;>
    simp [Runner.killThenClose, Runner.kill, Runner.destroyTmp,
      Runner.prepareStep, hc, ho, he, hready]

/-- Witness for C10 at a concrete running session. -/
theorem c10_kill_preserves_guard_witness :
    ((Runner.killThenClose sRunning).1).tmpDirandPidFileReady = true ∧
    ((Runner.killThenClose sRunning).1).port = sRunning.port ∧
    ((Runner.killThenClose sRunning).1).chromePath = sRunning.chromePath ∧
    ((Runner.killThenClose sRunning).1).chromeDataDir =
      sRunning.chromeDataDir ∧
    ((Runner.killThenClose sRunning).1).chromeProcess = none ∧
    Runner.prepareStep envReady ((Runner.killThenClose sRunning).1) =
      Except.ok ((Runner.killThenClose sRunning).1, []) :=
  c10_kill_preserves_guard envReady sRunning rfl

/-- C2, counterexample to the claim as stated: with a probe that always
fails, the launch rejects after exactly 11 attempts but with 5000 ms of
cumulative delay, not the claimed 5.5 s (the 11th failed attempt rejects
immediately, without a further 500 ms wait). -/
theorem c2_counterexample :
    (Runner.launch [] envNever sPrepared).2.2 =
      Except.error (LaunchError.readinessTimeout 11 5000) ∧
    Runner.waitUntilReady (fun _ => false) = (false, 11, 5000) ∧
    (5000 : Nat) ≠ 5500 := by
  refine ⟨rfl, rfl, by decide⟩

/-- C2 as amended: `waitUntilReady` makes up to 11 probe attempts
(1 initial + 10 retries), waiting 500 ms after each of the first 10
failures; if the probe fails the first 10 times and succeeds on the 11th,
`launch()` resolves successfully after 11 attempts and 5000 ms of
cumulative delay; if the probe always fails, `launch()` rejects with the
timeout error after exactly 11 attempts and 5000 ms (not 5500 ms) of
cumulative delay. -/
theorem c2_readiness_budget (defaultFlags : List String) (env : Env)
    (s : RunnerState) (hport : portTruthy s.port = false)
    (hguard : s.tmpDirandPidFileReady = true)
    (hpath : pathTruthy s.chromePath = true)
    (hproc : s.chromeProcess = none) :
    ((∀ n, n ≤ 10 → env.readyProbe n = false) → env.readyProbe 11 = true →
      (Runner.launch defaultFlags env s).2.2 =
        Except.ok (LaunchOutcome.ready 11 5000)) ∧
    ((∀ n, env.readyProbe n = false) →
      (Runner.launch defaultFlags env s).2.2 =
        Except.error (LaunchError.readinessTimeout 11 5000)) ∧
    (Runner.waitUntilReady env.readyProbe).2.1 ≤ 11 := by
  rw [launch_eq_spawn defaultFlags env s hport hguard hpath]
  refine ⟨?_, ?_, pollAux_attempts_le env.readyProbe 10 0⟩
  · intro h10 h11
    have hw := waitUntilReady_succeeds_at_11 env.readyProbe h10 h11
    simp [Runner.spawn, hproc, hw]
  · intro h
    have hw := waitUntilReady_all_false env.readyProbe h
    simp [Runner.spawn, hproc, hw]

/-- Witness for C2 at a concrete environment whose probe first succeeds on
the 11th attempt. -/
theorem c2_readiness_budget_witness :
    (Runner.launch [] envProbe11 sPrepared).2.2 =
      Except.ok (LaunchOutcome.ready 11 5000) ∧
    (Runner.waitUntilReady envProbe11.readyProbe).2.1 ≤ 11 := by
  have h := c2_readiness_budget [] envProbe11 sPrepared rfl rfl (by decide) rfl
  exact ⟨h.1 (fun n hn => by simp [envProbe11]; omega) (by decide), h.2.2⟩

/-- C3: with a truthy caller-supplied port and a succeeding reachability
probe, `launch()` returns immediately with the session unchanged and the
probe as its only effect (no workspace created, no process spawned); with
the probe failing, `launch()` logs one warning and runs full preparation
and exactly one spawn, probing the supplied port only once. -/
theorem c3_adopt_or_create (defaultFlags : List String) (env : Env)
    (s : RunnerState) (hport : portTruthy s.port = true) :
    (env.portProbe = true →
      Runner.launch defaultFlags env s =
        (s, [Effect.probePort (optNatStr s.port)],
         Except.ok LaunchOutcome.adopted)) ∧
    (env.portProbe = false →
      s.tmpDirandPidFileReady = false →
      SUPPORTED_PLATFORMS.contains env.platform = true →
      pathTruthy s.chromePath = true →
      s.chromeProcess = none →
      countEffects isProbePort (Runner.launch defaultFlags env s).2.1 = 1 ∧
      countEffects isWarnLog (Runner.launch defaultFlags env s).2.1 = 1 ∧
      countEffects isMkTmpDir (Runner.launch defaultFlags env s).2.1 = 1 ∧
      countEffects isSpawnProc (Runner.launch defaultFlags env s).2.1 = 1) := by
  constructor
  · intro hprobe
    simp [Runner.launch, hport, hprobe]
  · intro hprobe hguard hsup hpath hproc
    have hsup2 : env.platform ∈ SUPPORTED_PLATFORMS := by simpa using hsup
    have e1 : Runner.launch defaultFlags env s =
        Runner.launchFresh defaultFlags env s
          [Effect.probePort (optNatStr s.port),
           Effect.warnLog ("no chrome found on port " ++ optNatStr s.port ++
             ", launching a new Chrome.")] := by
      simp [Runner.launch, hport, hprobe]
    have hprep : Runner.prepare env s = Except.ok
        ({ s with
            chromeDataDir := some env.tmpDir
            chromeOutFile := some env.outFd
            chromeErrorFile := some env.errFd
            pidFile := some env.pidFd
            tmpDirandPidFileReady := true },
          prepareEffects env) := by
      simp [Runner.prepare, prepareEffects, hsup2]
    have e2 : Runner.prepareStep env s = Except.ok
        ({ s with
            chromeDataDir := some env.tmpDir
            chromeOutFile := some env.outFd
            chromeErrorFile := some env.errFd
            pidFile := some env.pidFd
            tmpDirandPidFileReady := true },
          prepareEffects env) := by
      simp [Runner.prepareStep, hguard, hprep]
    have hpath2 : pathTruthy
        ({ s with
            chromeDataDir := some env.tmpDir
            chromeOutFile := some env.outFd
            chromeErrorFile := some env.errFd
            pidFile := some env.pidFd
            tmpDirandPidFileReady := true } : RunnerState).chromePath = true :=
      hpath
    have hproc2 :
        ({ s with
            chromeDataDir := some env.tmpDir
            chromeOutFile := some env.outFd
            chromeErrorFile := some env.errFd
            pidFile := some env.pidFd
            tmpDirandPidFileReady := true } : RunnerState).chromeProcess =
          none := hproc
    rcases hs : Runner.spawn defaultFlags env
        { s with
            chromeDataDir := some env.tmpDir
            chromeOutFile := some env.outFd
            chromeErrorFile := some env.errFd
            pidFile := some env.pidFd
            tmpDirandPidFileReady := true } with ⟨s3, eff3, r3⟩
    have e5 : eff3 =
        [Effect.spawnProcess
           (optStrStr (spawnPortState env
             { s with
                chromeDataDir := some env.tmpDir
                chromeOutFile := some env.outFd
                chromeErrorFile := some env.errFd
                pidFile := some env.pidFd
                tmpDirandPidFileReady := true }).chromePath)
           (Runner.flags defaultFlags env.platform (spawnPortState env
             { s with
                chromeDataDir := some env.tmpDir
                chromeOutFile := some env.outFd
                chromeErrorFile := some env.errFd
                pidFile := some env.pidFd
                tmpDirandPidFileReady := true }))
           env.newPid,
         Effect.registerSigintHandler,
         Effect.registerCloseWatcher env.newPid,
         Effect.writePidFile env.newPid] := by
      rw [← spawn_effects defaultFlags env _ hproc2, hs]
    have e4 : Runner.launchFresh defaultFlags env s
        [Effect.probePort (optNatStr s.port),
         Effect.warnLog ("no chrome found on port " ++ optNatStr s.port ++
           ", launching a new Chrome.")] =
        (s3,
         [Effect.probePort (optNatStr s.port),
          Effect.warnLog ("no chrome found on port " ++ optNatStr s.port ++
            ", launching a new Chrome.")] ++ prepareEffects env ++ eff3,
         r3) := by
      simp [Runner.launchFresh, e2, hpath2, hs]
    rw [e1, e4, e5]
    simp [countEffects, prepareEffects, isProbePort, isWarnLog, isMkTmpDir,
      isSpawnProc]

/-- Witness for C3: adoption at a reachable port, and a single prepared
spawn at an unreachable one. -/
theorem c3_adopt_or_create_witness :
    Runner.launch [] envAdopt sAdopt =
      (sAdopt, [Effect.probePort (optNatStr sAdopt.port)],
       Except.ok LaunchOutcome.adopted) ∧
    countEffects isMkTmpDir (Runner.launch [] envProbe11 sAdopt).2.1 = 1 ∧
    countEffects isSpawnProc (Runner.launch [] envProbe11 sAdopt).2.1 = 1 := by
  refine ⟨(c3_adopt_or_create [] envAdopt sAdopt (by decide)).1 rfl, ?_, ?_⟩
  · exact ((c3_adopt_or_create [] envProbe11 sAdopt (by decide)).2
      rfl rfl (by decide) (by decide) rfl).2.2.1
  · exact ((c3_adopt_or_create [] envProbe11 sAdopt (by decide)).2
      rfl rfl (by decide) (by decide) rfl).2.2.2

/-- C9: when readiness polling times out, `spawn` (and hence `launch`)
rejects, yet the spawned process handle remains recorded on the session,
no kill is issued and no workspace teardown happens: the failed launch
does not restore the pre-spawn state. -/
theorem c9_no_rollback_on_timeout (defaultFlags : List String) (env : Env)
    (s : RunnerState) (hproc : s.chromeProcess = none)
    (hfail : ∀ n, env.readyProbe n = false) :
    ((Runner.spawn defaultFlags env s).1).chromeProcess = some env.newPid ∧
    ((Runner.spawn defaultFlags env s).1).tmpDirandPidFileReady =
      s.tmpDirandPidFileReady ∧
    (Runner.spawn defaultFlags env s).2.2 =
      Except.error (LaunchError.readinessTimeout 11 5000) ∧
    countEffects isKillGroup (Runner.spawn defaultFlags env s).2.1 = 0 ∧
    countEffects isRmTree (Runner.spawn defaultFlags env s).2.1 = 0 ∧
    countEffects isCloseFd (Runner.spawn defaultFlags env s).2.1 = 0 := by
  have hw := waitUntilReady_all_false env.readyProbe hfail
  by_cases hp : portTruthy s.port = true <;>
    simp [Runner.spawn, spawnPortState, hproc, hw, hp, countEffects,
      isKillGroup, isRmTree, isCloseFd]

/-- Witness for C9 at a concrete prepared session and an always-failing
probe. -/
theorem c9_no_rollback_on_timeout_witness :
    ((Runner.spawn [] envNever sPrepared).1).chromeProcess =
      some envNever.newPid ∧
    ((Runner.spawn [] envNever sPrepared).1).tmpDirandPidFileReady =
      sPrepared.tmpDirandPidFileReady ∧
    (Runner.spawn [] envNever sPrepared).2.2 =
      Except.error (LaunchError.readinessTimeout 11 5000) ∧
    countEffects isKillGroup (Runner.spawn [] envNever sPrepared).2.1 = 0 ∧
    countEffects isRmTree (Runner.spawn [] envNever sPrepared).2.1 = 0 ∧
    countEffects isCloseFd (Runner.spawn [] envNever sPrepared).2.1 = 0 :=
  c9_no_rollback_on_timeout [] envNever sPrepared rfl (fun _ => rfl)

/-- C4, counterexample to the claim as stated: the caller's extra flags are
appended verbatim, so a session on a non-Linux platform whose caller flags
contain `--disable-setuid-sandbox` produces a flag list containing that
flag — the claimed "if and only if on a Linux-family platform" fails. -/
theorem c4_counterexample :
    "--disable-setuid-sandbox" ∈
      Runner.flags [] "darwin"
        (Runner.new { port := some 9222
                      chromePath := none
                      chromeFlags := some ["--disable-setuid-sandbox"] }) ∧
    "darwin" ≠ "linux" := by decide

/-- C4 as amended: provided neither the baseline default flags nor the
caller's extra flags themselves contain the literal
`--disable-setuid-sandbox` (the caller's flags are appended verbatim and
can reintroduce it on any platform), the generated flag list ends with the
literal `about:blank`, contains the resolved remote-debugging-port and
user-data-dir flags, contains `--disable-setuid-sandbox` if and only if
the platform is `linux`, and the caller's extra flags form the tail of the
list right before `about:blank`, after all generated flags. -/
theorem c4_flags_shape (defaultFlags : List String) (platform : String)
    (s : RunnerState)
    (hd : "--disable-setuid-sandbox" ∉ defaultFlags)
    (hc : "--disable-setuid-sandbox" ∉ s.chromeFlags) :
    (Runner.flags defaultFlags platform s).getLast? = some "about:blank" ∧
    ("--remote-debugging-port=" ++ optNatStr s.port) ∈
      Runner.flags defaultFlags platform s ∧
    ("--user-data-dir=" ++ optStrStr s.chromeDataDir) ∈
      Runner.flags defaultFlags platform s ∧
    ("--disable-setuid-sandbox" ∈ Runner.flags defaultFlags platform s ↔
      platform = "linux") ∧
    List.IsSuffix (s.chromeFlags ++ ["about:blank"])
      (Runner.flags defaultFlags platform s) := by
  refine ⟨?_, ?_, ?_, ⟨?_, ?_⟩, ?_⟩
  · simp only [Runner.flags, ← List.append_assoc]
    exact List.getLast?_concat _
  · simp [Runner.flags]
  · simp [Runner.flags]
  · intro h
    by_cases hl : (platform == "linux") = true
    · exact eq_of_beq hl
    · exfalso
      have hne1 : ¬("--disable-setuid-sandbox" =
          "--remote-debugging-port=" ++ optNatStr s.port) :=
        fun hh => remotePortFlag_ne_setuid (optNatStr s.port) hh.symm
      have hne2 : ¬("--disable-setuid-sandbox" =
          "--user-data-dir=" ++ optStrStr s.chromeDataDir) :=
        fun hh => userDataDirFlag_ne_setuid (optStrStr s.chromeDataDir) hh.symm
      have hab : ¬(("--disable-setuid-sandbox" : String) = "about:blank") := by
        decide
      simp only [Runner.flags] at h
      rw [if_neg hl] at h
      simp only [List.append_nil, List.nil_append, List.mem_append,
        List.mem_cons, List.not_mem_nil, or_false] at h
      tauto
  · intro h
    subst h
    simp [Runner.flags]
  · exact ⟨defaultFlags ++
      ["--remote-debugging-port=" ++ optNatStr s.port,
       "--user-data-dir=" ++ optStrStr s.chromeDataDir] ++
      (if platform == "linux" then ["--disable-setuid-sandbox"] else []),
      by simp [Runner.flags]⟩

/-- Witness for C4 at a concrete Linux session with caller flags free of
the setuid-sandbox flag. -/
theorem c4_flags_shape_witness :
    (Runner.flags ["--headless"] "linux" sRunning).getLast? =
      some "about:blank" ∧
    ("--remote-debugging-port=" ++ optNatStr sRunning.port) ∈
      Runner.flags ["--headless"] "linux" sRunning ∧
    ("--user-data-dir=" ++ optStrStr sRunning.chromeDataDir) ∈
      Runner.flags ["--headless"] "linux" sRunning ∧
    ("--disable-setuid-sandbox" ∈ Runner.flags ["--headless"] "linux" sRunning
      ↔ "linux" = "linux") ∧
    List.IsSuffix (sRunning.chromeFlags ++ ["about:blank"])
      (Runner.flags ["--headless"] "linux" sRunning) :=
  c4_flags_shape ["--headless"] "linux" sRunning (by decide) (by decide)

/-- C6: the claim matches the evident intent of
`launchWithoutNoise`/`launchWithHeadless` (the injected noise and headless
flag sets followed by the caller's flags), but the code passes the caller's
`runnerOptions` as the last argument of `Object.assign`, so a
caller-supplied `chromeFlags` property overrides the injected
concatenation: with `chromeFlags: ["--foo"]` the session's flag list is
exactly `["--foo"]` — the noise (and headless/GPU) flags are dropped.
Without a caller-supplied `chromeFlags` the injection works, which shows
the dead concatenation was intended to be used. -/
theorem c6_noise_flags_dropped :
    (launchWithoutNoiseRunner ["--mute-audio"]
      { port := none, chromePath := none,
        chromeFlags := some ["--foo"] }).chromeFlags = ["--foo"] ∧
    "--mute-audio" ∉
      (launchWithoutNoiseRunner ["--mute-audio"]
        { port := none, chromePath := none,
          chromeFlags := some ["--foo"] }).chromeFlags ∧
    (launchWithHeadlessRunner ["--mute-audio"]
      { port := none, chromePath := none,
        chromeFlags := some ["--foo"] }).chromeFlags = ["--foo"] ∧
    "--headless" ∉
      (launchWithHeadlessRunner ["--mute-audio"]
        { port := none, chromePath := none,
          chromeFlags := some ["--foo"] }).chromeFlags ∧
    (launchWithoutNoiseRunner ["--mute-audio"]
      { port := none, chromePath := none,
        chromeFlags := none }).chromeFlags = ["--mute-audio"] ∧
    (launchWithHeadlessRunner ["--mute-audio"]
      { port := none, chromePath := none,
        chromeFlags := none }).chromeFlags =
      ["--mute-audio", "--headless", "--disable-gpu"] := by decide

/-- C7, counterexample to the claim as stated: starting a session, letting
the process die unexpectedly (which schedules a respawn) and running the
scheduled `spawn()` registers a second SIGINT handler and a second
exit-watcher — registration is not "at most once per session". -/
theorem c7_counterexample :
    (runSession [] envReady
      { runner := sAdopt, sigintHandlers := 0, closeWatchers := 0 }
      [SessionEvent.spawnCall, SessionEvent.processClose,
       SessionEvent.spawnCall]).sigintHandlers = 2 ∧
    (runSession [] envReady
      { runner := sAdopt, sigintHandlers := 0, closeWatchers := 0 }
      [SessionEvent.spawnCall, SessionEvent.processClose,
       SessionEvent.spawnCall]).closeWatchers = 2 := by decide

/-- C7 as amended: every `spawn()` call that actually starts a process
(no process currently tracked) registers exactly one SIGINT handler and
one exit-watcher, and a `spawn()` call that finds a tracked process
registers nothing — so handlers accumulate one per actual spawn (including
automatic respawns), not at most one per session. -/
theorem c7_registration_per_spawn (defaultFlags : List String) (env : Env)
    (s : RunnerState) (hproc : s.chromeProcess = none) (pid : Nat) :
    countEffects isSigintReg (Runner.spawn defaultFlags env s).2.1 = 1 ∧
    countEffects isCloseWatcherReg (Runner.spawn defaultFlags env s).2.1 = 1 ∧
    (Runner.spawn defaultFlags env
      { s with chromeProcess := some pid }).2.1 = [] := by
  have he := spawn_effects defaultFlags env s hproc
  refine ⟨?_, ?_, by simp [Runner.spawn]⟩ <;>
    simp [he, countEffects, isSigintReg, isCloseWatcherReg]

/-- Witness for C7 at a concrete fresh session. -/
theorem c7_registration_per_spawn_witness :
    countEffects isSigintReg (Runner.spawn [] envReady sAdopt).2.1 = 1 ∧
    countEffects isCloseWatcherReg (Runner.spawn [] envReady sAdopt).2.1 = 1 ∧
    (Runner.spawn [] envReady
      { sAdopt with chromeProcess := some 4242 }).2.1 = [] :=
  c7_registration_per_spawn [] envReady sAdopt rfl 4242

/-- C8: on a supported platform `prepare()` performs exactly one
workspace-directory creation and exactly three artifact creations
(`chrome-out.log`, `chrome-err.log`, `chrome.pid`) and nothing else, and
sets the ready guard, so the preparation step of a second `launch()` call
performs no filesystem effects; on an unsupported platform `prepare()`
fails before performing any effect or setting the guard (it returns only
the error, leaving the caller's state untouched). -/
theorem c8_prepare_exact_effects (env env2 : Env) (s : RunnerState)
    (hsup : SUPPORTED_PLATFORMS.contains env.platform = true)
    (hunsup : SUPPORTED_PLATFORMS.contains env2.platform = false) :
    (∃ s', Runner.prepare env s = Except.ok (s', prepareEffects env) ∧
       s'.tmpDirandPidFileReady = true ∧
       Runner.prepareStep env s' = Except.ok (s', [])) ∧
    countEffects isMkTmpDir (prepareEffects env) = 1 ∧
    countEffects isOpenFileAppend (prepareEffects env) = 3 ∧
    countEffects (fun e => !(isMkTmpDir e || isOpenFileAppend e))
      (prepareEffects env) = 0 ∧
    Runner.prepare env2 s =
      Except.error (LaunchError.unsupportedPlatform env2.platform) := by
  have hsup2 : env.platform ∈ SUPPORTED_PLATFORMS := by simpa using hsup
  have hunsup2 : env2.platform ∉ SUPPORTED_PLATFORMS := by simpa using hunsup
  refine ⟨⟨{ s with
      chromeDataDir := some env.tmpDir
      chromeOutFile := some env.outFd
      chromeErrorFile := some env.errFd
      pidFile := some env.pidFd
      tmpDirandPidFileReady := true }, ?_, rfl, ?_⟩, ?_, ?_, ?_, ?_⟩
  · simp [Runner.prepare, prepareEffects, hsup2]
  · simp [Runner.prepareStep]
  · simp [countEffects, prepareEffects, isMkTmpDir, isOpenFileAppend]
  · simp [countEffects, prepareEffects, isMkTmpDir, isOpenFileAppend]
  · simp [countEffects, prepareEffects, isMkTmpDir, isOpenFileAppend]
  · simp [Runner.prepare, hunsup2]

/-- Witness for C8 with a Linux environment and an unsupported-platform
environment. -/
theorem c8_prepare_exact_effects_witness :
    (∃ s', Runner.prepare envReady sFresh =
        Except.ok (s', prepareEffects envReady) ∧
       s'.tmpDirandPidFileReady = true ∧
       Runner.prepareStep envReady s' = Except.ok (s', [])) ∧
    countEffects isMkTmpDir (prepareEffects envReady) = 1 ∧
    countEffects isOpenFileAppend (prepareEffects envReady) = 3 ∧
    countEffects (fun e => !(isMkTmpDir e || isOpenFileAppend e))
      (prepareEffects envReady) = 0 ∧
    Runner.prepare envUnsupported sFresh =
      Except.error (LaunchError.unsupportedPlatform envUnsupported.platform) :=
  c8_prepare_exact_effects envReady envUnsupported sFresh (by decide)
    (by decide)

end ChromeRunner
